import Mathlib

/-!
Shallow embedding of `backend/app/main.py`, a FastAPI chat backend with an
in-memory session store (`chat_sessions : Dict[str, SessionInfo]`) and a
single-turn chat handler that delegates to an external completion provider
(Groq via LangChain) with a local fallback.

Modelling conventions:
* timestamps (`datetime.now()`) are abstract `Nat` ticks, supplied as explicit
  arguments in the order the Python code reads the clock;
* the Python dict is an association list in insertion order: assignment of a
  new key appends, in-place mutation of a fetched session is an update at its
  key;
* floats (`temperature`) are `Rat`; Python float truthiness (`t or 0.2`) is
  `t = 0`;
* Python string-option truthiness (`if req.session_id:`, `if not api_key:`)
  is `strTruthy`: `None` and `""` are falsy;
* the external call (`ChatGroq(...).invoke`) together with the SDK imports is
  an abstract `Provider` function returning `Except Unit String`; `Except.error`
  is any exception raised inside the `try` block of
  `call_groq_with_langchain`, which the code turns into `None`;
* `raise HTTPException` is `Except.error` in the handler's result, paired with
  the store unchanged (FastAPI aborts the handler, so no later mutation runs).
-/

namespace Chatbot

/-- The `Literal["system", "user", "assistant"]` field of the `Message` pydantic model. -/
inductive Role where
  | system
  | user
  | assistant
deriving DecidableEq, Repr

/-- The `Message` pydantic model: role, content, and a timestamp that
`__init__` defaults to `datetime.now()` when absent. -/
structure Message where
  role : Role
  content : String
  timestamp : Nat
deriving DecidableEq, Repr

/-- The `SessionInfo` pydantic model. -/
structure SessionInfo where
  session_id : String
  created_at : Nat
  last_active : Nat
  messages : List Message
deriving DecidableEq, Repr

/-- The global `chat_sessions` dict, as an insertion-ordered association list. -/
abbrev Store := List (String × SessionInfo)

/-- Dict lookup `chat_sessions[k]` / membership `k in chat_sessions`. -/
def Store.lookup (s : Store) (k : String) : Option SessionInfo :=
  (s.find? (fun p => p.1 == k)).map (fun p => p.2)

/-- In-place mutation of the session object stored at key `k`. -/
def Store.update (s : Store) (k : String) (v : SessionInfo) : Store :=
  s.map (fun p => if p.1 == k then (k, v) else p)

/-- Dict deletion `del chat_sessions[k]`. -/
def Store.eraseKey (s : Store) (k : String) : Store :=
  s.filter (fun p => !(p.1 == k))

/-- The `ChatRequest` pydantic model. `temperature` carries `Optional[float]`
(the pydantic default `0.2` is applied at parse time, see
`parseChatRequest`). -/
structure ChatRequest where
  messages : List Message
  model : Option String
  temperature : Option Rat
  session_id : Option String
deriving DecidableEq, Repr

/-- The `ChatResponse` pydantic model. -/
structure ChatResponse where
  reply : Message
  session_id : String
deriving DecidableEq, Repr

/-- The error kinds: `HTTPException(404)` (session not found) and the pydantic request
validation failure (FastAPI's 422), the two client-facing error kinds. -/
inductive ApiError where
  | notFound
  | validationError
deriving DecidableEq, Repr

/-- The environment variables the handler reads: `GROQ_API_KEY` and
`GROQ_MODEL` (`none` = unset). -/
structure Env where
  groq_api_key : Option String
  groq_model : Option String
deriving DecidableEq, Repr

/-- Python truthiness of an optional string: `None` and `""` are falsy. -/
def strTruthy : Option String → Bool
  | none => false
  | some s => !(s == "")

/-- A LangChain message: the mapping in `call_groq_with_langchain` keeps the
role and the content of each message (timestamps are dropped). -/
abbrev LCMessage := Role × String

/-- The per-message mapping to `SystemMessage` / `HumanMessage` / `AIMessage`. -/
def toLC (m : Message) : LCMessage :=
  (m.role, m.content)

/-- The abstract external completion call: everything inside the `try` block of
`call_groq_with_langchain` after message mapping (SDK import, `ChatGroq`
construction, `invoke`). It receives the mapped messages, the resolved model
name and the temperature; `Except.error` is any raised exception. -/
abbrev Provider := List LCMessage → String → Rat → Except Unit String

/-- Resolution `model or os.getenv("GROQ_MODEL", "llama-3.1-8b-instant")`: the override
is used only when truthy (non-`None`, nonempty); otherwise the environment
model, defaulting to `"llama-3.1-8b-instant"` when `GROQ_MODEL` is unset. -/
def resolveModel (model : Option String) (env : Env) : String :=
  if strTruthy model then model.getD "" else env.groq_model.getD "llama-3.1-8b-instant"

/-- Resolution `req.temperature or 0.2`: `None` and `0.0` resolve to `0.2`. -/
def resolveTemperature : Option Rat → Rat
  | none => 2/10
  | some t => if t == 0 then 2/10 else t

/-- The function `call_groq_with_langchain(messages, model, temperature)`: returns `None`
when `GROQ_API_KEY` is unset or empty, otherwise maps the messages and calls
the provider, converting any exception to `None`. -/
def call_groq_with_langchain (env : Env) (provider : Provider)
    (messages : List Message) (model : Option String) (temperature : Rat) :
    Option String :=
  if strTruthy env.groq_api_key then
    let lc_messages := messages.map toLC
    match provider lc_messages (resolveModel model env) temperature with
    | Except.ok s => some s
    | Except.error _ => none
  else
    none

/-- The fallback completion built from the most recent user message. -/
def demoFallback (user_last : String) : String :=
  "(Demo mode) You said: " ++ user_last ++
    "\nSet GROQ_API_KEY to enable real model responses."

/-- The scan `next((m.content for m in reversed(session.messages) if m.role == "user"), "")`. -/
def lastUserContent (ms : List Message) : String :=
  match ms.reverse.find? (fun m => m.role == Role.user) with
  | some m => m.content
  | none => ""

/-- The session the chat handler resolved: its store key, whether it was
freshly created this turn, and its state after step 1 (incoming messages
appended / initial history set). -/
structure Resolved where
  key : String
  isNew : Bool
  session : SessionInfo
deriving DecidableEq, Repr

/-- The create branch of the handler: `chat_sessions[session_id] =
SessionInfo(..., messages=req.messages.copy())` with a fresh uuid and
`created_at = last_active = now`. -/
def newSessionResolved (req : ChatRequest) (freshId : String) (t1 : Nat) :
    Resolved :=
  { key := freshId, isNew := true,
    session := { session_id := freshId, created_at := t1, last_active := t1,
                 messages := req.messages } }

/-- Lines 163–180 of `chat`: `if req.session_id:` (Python truthiness, so an
empty string takes the create branch), 404 on unknown id, otherwise extend the
existing history with the incoming messages. -/
def resolveSession (store : Store) (req : ChatRequest) (freshId : String)
    (t1 : Nat) : Except ApiError Resolved :=
  match req.session_id with
  | some sid =>
      if sid == "" then
        Except.ok (newSessionResolved req freshId t1)
      else
        match Store.lookup store sid with
        | some session =>
            Except.ok { key := sid, isNew := false,
                        session := { session with
                                     messages := session.messages ++ req.messages } }
        | none => Except.error ApiError.notFound
  | none => Except.ok (newSessionResolved req freshId t1)

/-- Lines 186–194 of `chat`: the provider's text when the call yields one,
otherwise the demo fallback built from the resolved history (updating
`last_active` does not change `session.messages`, so the history handed to
`call_groq_with_langchain` is the resolved session's history). -/
def turnCompletion (env : Env) (provider : Provider) (req : ChatRequest)
    (history : List Message) : String :=
  match call_groq_with_langchain env provider history req.model
          (resolveTemperature req.temperature) with
  | some s => s
  | none => demoFallback (lastUserContent history)

/-- Line 197: `assistant_message = Message(role="assistant",
content=completion)`, timestamped `t3`. -/
def turnReply (env : Env) (provider : Provider) (req : ChatRequest)
    (history : List Message) (t3 : Nat) : Message :=
  { role := Role.assistant, content := turnCompletion env provider req history,
    timestamp := t3 }

/-- The resolved session after the rest of the turn: `last_active` refreshed
to `t2` (line 183) and the assistant message appended (line 198). -/
def finishedSession (env : Env) (provider : Provider) (req : ChatRequest)
    (r : Resolved) (t2 t3 : Nat) : SessionInfo :=
  { r.session with
    last_active := t2,
    messages := r.session.messages ++
      [turnReply env provider req r.session.messages t3] }

/-- The `POST /chat` handler. Clock reads, in order: `t1` (session creation,
when taken), `t2` (`session.last_active = datetime.now()`), `t3` (the
assistant `Message` timestamp). On `HTTPException` the store is returned
unchanged. -/
def chat (env : Env) (provider : Provider) (store : Store) (req : ChatRequest)
    (freshId : String) (t1 t2 t3 : Nat) :
    Store × Except ApiError ChatResponse :=
  match resolveSession store req freshId t1 with
  | Except.error e => (store, Except.error e)
  | Except.ok r =>
      ((if r.isNew then store ++ [(r.key, finishedSession env provider req r t2 t3)]
        else Store.update store r.key (finishedSession env provider req r t2 t3)),
       Except.ok { reply := turnReply env provider req r.session.messages t3,
                   session_id := (finishedSession env provider req r t2 t3).session_id })

/-- The `POST /session/create` handler: fresh uuid, `created_at = last_active
= now`, empty history, inserted into the store. -/
def create_session (store : Store) (freshId : String) (now : Nat) :
    Store × String × Nat :=
  (store ++ [(freshId,
     { session_id := freshId, created_at := now, last_active := now,
       messages := [] })],
   freshId, now)

/-- The `POST /cleanup` handler: collect the ids with
`now - last_active > timedelta(hours=max_age_hours)` (i.e.
`last_active + max_age < now`, with `max_age` the duration threshold), then
delete each; returns the new store and the removed ids. -/
def cleanup_sessions (store : Store) (now : Nat) (max_age : Nat) :
    Store × List String :=
  let expired :=
    (store.filter (fun p => decide (p.2.last_active + max_age < now))).map
      (fun p => p.1)
  (expired.foldl Store.eraseKey store, expired)

/-- A raw (unvalidated) message body as pydantic sees it: a role string, an
optional content field, an optional timestamp. -/
structure RawMessage where
  role : String
  content : Option String
  timestamp : Option Nat
deriving DecidableEq, Repr

/-- Validation of the `role: Literal["system", "user", "assistant"]` field. -/
def parseRole (s : String) : Option Role :=
  if s == "system" then some Role.system
  else if s == "user" then some Role.user
  else if s == "assistant" then some Role.assistant
  else none

/-- Pydantic validation of one `Message`: role must be a valid literal,
`content` is required, `timestamp` defaults to `datetime.now()`. -/
def parseMessage (now : Nat) (raw : RawMessage) : Option Message :=
  match parseRole raw.role, raw.content with
  | some r, some c => some { role := r, content := c,
                             timestamp := raw.timestamp.getD now }
  | _, _ => none

/-- A raw `ChatRequest` body. `temperature = none` stands for both an absent
field (pydantic default `0.2`, itself truthy-resolved later) and an explicit
`null`; both reach the handler as a non-truthy value resolved to `0.2`. -/
structure RawChatRequest where
  messages : Option (List RawMessage)
  model : Option String
  temperature : Option Rat
  session_id : Option String
deriving DecidableEq, Repr

/-- Pydantic validation of the request body: `messages` is required and every
element must validate; `List[Message]` has no minimum-length constraint, so an
empty list passes validation. -/
def parseChatRequest (now : Nat) (raw : RawChatRequest) : Option ChatRequest :=
  match raw.messages with
  | none => none
  | some rs =>
      match rs.mapM (parseMessage now) with
      | none => none
      | some ms => some { messages := ms, model := raw.model,
                          temperature := raw.temperature,
                          session_id := raw.session_id }

/-- The `POST /chat` endpoint including the framework validation layer: a body that fails
pydantic validation is rejected (422) before the handler runs, so the store is
untouched. -/
def handle_chat_raw (env : Env) (provider : Provider) (store : Store)
    (raw : RawChatRequest) (freshId : String) (t0 t1 t2 t3 : Nat) :
    Store × Except ApiError ChatResponse :=
  match parseChatRequest t0 raw with
  | none => (store, Except.error ApiError.validationError)
  | some req => chat env provider store req freshId t1 t2 t3

/-! ### Concrete fixtures used by witnesses and counterexamples -/

/-- Environment with no `GROQ_API_KEY` configured. -/
def envNoKey : Env := { groq_api_key := none, groq_model := none }

/-- Environment with a key and a `GROQ_MODEL` default configured. -/
def envWithKey : Env := { groq_api_key := some "k", groq_model := some "envmodel" }

/-- A provider whose call always raises. -/
def provFail : Provider := fun _ _ _ => Except.error ()

/-- A provider echoing the model name it was handed. -/
def provEchoModel : Provider := fun _ m _ => Except.ok m

/-- A provider reporting whether it was handed temperature `0`. -/
def provProbeTemp : Provider :=
  fun _ _ t => Except.ok (if t == 0 then "temp-zero" else "temp-nonzero")

/-- The user message of the spec's example scenario. -/
def msgHello : Message := { role := Role.user, content := "hello", timestamp := 0 }

/-- A request submitting only `msgHello`, with no overrides and no session id. -/
def reqHello : ChatRequest :=
  { messages := [msgHello], model := none, temperature := none, session_id := none }

/-- The key of the session the turn resolves: the supplied id when truthy,
otherwise the freshly generated one. -/
def resolvedKey (req : ChatRequest) (freshId : String) : String :=
  match req.session_id with
  | some sid => if sid == "" then freshId else sid
  | none => freshId

/-- Request `reqHello` aimed at the existing session `"aaa"`. -/
def reqHelloSid : ChatRequest :=
  { messages := [msgHello], model := none, temperature := none,
    session_id := some "aaa" }

/-- Request `reqHello` carrying the empty string as `session_id`. -/
def reqHelloEmptySid : ChatRequest :=
  { messages := [msgHello], model := none, temperature := none,
    session_id := some "" }

/-- Request `reqHello` aimed at a session id absent from the store. -/
def reqHelloGhostSid : ChatRequest :=
  { messages := [msgHello], model := none, temperature := none,
    session_id := some "ghost" }

/-- A request supplying the explicit overrides `model = ""` and
`temperature = 0.0` (both falsy in Python). -/
def reqFalsyOverrides : ChatRequest :=
  { messages := [msgHello], model := some "", temperature := some 0,
    session_id := none }

/-- A raw body whose single message carries an invalid role literal. -/
def rawBadRole : RawChatRequest :=
  { messages := some [{ role := "robot", content := some "x", timestamp := none }],
    model := none, temperature := none, session_id := none }

/-- A raw body with an empty `messages` list (passes pydantic validation). -/
def rawEmptyMessages : RawChatRequest :=
  { messages := some [], model := none, temperature := none, session_id := none }

/-- The session `POST /session/create` builds for id `"aaa"` at time 0. -/
def sessA : SessionInfo :=
  { session_id := "aaa", created_at := 0, last_active := 0, messages := [] }

/-- The store after `POST /session/create` returned id `"aaa"` at time 0. -/
def storeA : Store := (create_session [] "aaa" 0).1

/-- A second concrete session, under key `"bbb"`. -/
def sessB : SessionInfo :=
  { session_id := "bbb", created_at := 1, last_active := 1, messages := [] }

/-- A store holding the two sessions `"aaa"` and `"bbb"`. -/
def storeAB : Store := [("aaa", sessA), ("bbb", sessB)]

/-- The session resolution of `reqHelloSid` against `storeA`. -/
def resA : Resolved :=
  { key := "aaa", isNew := false,
    session := { session_id := "aaa", created_at := 0, last_active := 0,
                 messages := [msgHello] } }

/-- A second store with two sessions of distinct ages, for the cleanup
witness. -/
def storeOldNew : Store :=
  [("old", { session_id := "old", created_at := 0, last_active := 0,
             messages := [] }),
   ("new", { session_id := "new", created_at := 0, last_active := 50,
             messages := [] })]

/-! ### Association-list lemmas about the store -/

theorem Store.lookup_append (s l : Store) (k : String) :
    Store.lookup (s ++ l) k = (Store.lookup s k).or (Store.lookup l k) := by
  unfold Store.lookup
  rw [List.find?_append]
  cases s.find? (fun p => p.1 == k) <;> simp

theorem Store.lookup_append_single_ne (s : Store) (k f : String) (v : SessionInfo)
    (h : k ≠ f) : Store.lookup (s ++ [(f, v)]) k = Store.lookup s k := by
  rw [Store.lookup_append]
  have hf : Store.lookup [(f, v)] k = none := by
    simp only [Store.lookup, List.find?]
    have : (f == k) = false := by
      simp only [beq_eq_false_iff_ne]
      exact fun hfk => h hfk.symm
    simp [this]
  rw [hf]
  cases Store.lookup s k <;> rfl

theorem Store.lookup_append_single_self (s : Store) (f : String) (v : SessionInfo)
    (h : Store.lookup s f = none) : Store.lookup (s ++ [(f, v)]) f = some v := by
  rw [Store.lookup_append, h]
  simp [Store.lookup, List.find?]

theorem Store.lookup_cons (p : String × SessionInfo) (s : Store) (k : String) :
    Store.lookup (p :: s) k =
      if p.1 == k then some p.2 else Store.lookup s k := by
  simp only [Store.lookup, List.find?]
  cases h : p.1 == k <;> simp

theorem Store.update_cons (p : String × SessionInfo) (s : Store) (k : String)
    (v : SessionInfo) :
    Store.update (p :: s) k v =
      (if p.1 == k then (k, v) else p) :: Store.update s k v := rfl

theorem Store.lookup_update_ne (s : Store) (k k' : String) (v : SessionInfo)
    (h : k' ≠ k) : Store.lookup (Store.update s k v) k' = Store.lookup s k' := by
  induction s with
  | nil => rfl
  | cons p s ih =>
      rw [Store.update_cons, Store.lookup_cons, Store.lookup_cons]
      by_cases hp : p.1 = k
      · have hb : (p.1 == k) = true := by simpa using hp
        have hk : (k == k') = false := by
          rw [beq_eq_false_iff_ne]
          exact fun hkk => h hkk.symm
        have hp' : (p.1 == k') = false := by
          rw [beq_eq_false_iff_ne, hp]
          exact fun hkk => h hkk.symm
        simp [hb, hk, hp', ih]
      · have hb : (p.1 == k) = false := by simpa using hp
        by_cases hq : p.1 = k'
        · have hb' : (p.1 == k') = true := by simpa using hq
          simp [hb, hb']
        · have hb' : (p.1 == k') = false := by simpa using hq
          simp [hb, hb', ih]

theorem Store.lookup_update_self (s : Store) (k : String) (v v₀ : SessionInfo)
    (h : Store.lookup s k = some v₀) :
    Store.lookup (Store.update s k v) k = some v := by
  induction s with
  | nil => simp [Store.lookup] at h
  | cons p s ih =>
      rw [Store.lookup_cons] at h
      rw [Store.update_cons, Store.lookup_cons]
      by_cases hp : p.1 = k
      · have hb : (p.1 == k) = true := by simpa using hp
        simp [hb]
      · have hb : (p.1 == k) = false := by simpa using hp
        simp only [hb] at h
        simp [hb]
        simp at h
        exact ih h

theorem Store.lookup_mem (s : Store) (k : String) (v : SessionInfo)
    (h : Store.lookup s k = some v) : ∃ p, p ∈ s ∧ p.1 = k ∧ p.2 = v := by
  unfold Store.lookup at h
  cases hfind : List.find? (fun p => p.1 == k) s with
  | none => rw [hfind] at h; simp at h
  | some p =>
      rw [hfind] at h
      simp at h
      refine ⟨p, List.mem_of_find?_eq_some hfind, ?_, h⟩
      have := List.find?_some hfind
      simpa using this

theorem Store.mem_update (s : Store) (k : String) (v : SessionInfo)
    (p : String × SessionInfo) (h : p ∈ Store.update s k v) :
    p = (k, v) ∨ p ∈ s := by
  simp only [Store.update, List.mem_map] at h
  obtain ⟨q, hq, hqp⟩ := h
  by_cases hk : q.1 = k
  · left
    have hb : (q.1 == k) = true := by simpa using hk
    rw [← hqp]
    simp [hb]
  · right
    have hb : (q.1 == k) = false := by simpa using hk
    rw [← hqp]
    simpa [hb] using hq

theorem foldl_eraseKey (ks : List String) (s : Store) :
    ks.foldl Store.eraseKey s = s.filter (fun p => !(ks.contains p.1)) := by
  induction ks generalizing s with
  | nil =>
      simp only [List.foldl_nil, List.contains, List.elem_nil, Bool.not_false]
      exact (List.filter_true s).symm
  | cons k ks ih =>
      simp only [List.foldl_cons]
      rw [ih]
      unfold Store.eraseKey
      rw [List.filter_filter]
      apply List.filter_congr
      intro p _
      simp only [List.contains_cons, Bool.not_or]
      rw [Bool.and_comm]

/-! ### Behaviour lemmas shared by the claim theorems -/

theorem call_groq_none (env : Env) (provider : Provider) (ms : List Message)
    (m : Option String) (t : Rat) (h : strTruthy env.groq_api_key = false) :
    call_groq_with_langchain env provider ms m t = none := by
  simp [call_groq_with_langchain, h]

theorem resolveSession_no_id (store : Store) (req : ChatRequest)
    (freshId : String) (t1 : Nat) (h : req.session_id = none) :
    resolveSession store req freshId t1 =
      Except.ok (newSessionResolved req freshId t1) := by
  simp [resolveSession, h]

theorem resolveSession_empty_id (store : Store) (req : ChatRequest)
    (freshId : String) (t1 : Nat) (h : req.session_id = some "") :
    resolveSession store req freshId t1 =
      Except.ok (newSessionResolved req freshId t1) := by
  simp [resolveSession, h]

theorem resolveSession_found (store : Store) (req : ChatRequest)
    (freshId : String) (t1 : Nat) (sid : String) (sess : SessionInfo)
    (hsid : req.session_id = some sid) (hne : sid ≠ "")
    (hlook : Store.lookup store sid = some sess) :
    resolveSession store req freshId t1 =
      Except.ok { key := sid, isNew := false,
                  session := { sess with
                               messages := sess.messages ++ req.messages } } := by
  have hb : (sid == "") = false := by simpa using hne
  simp [resolveSession, hsid, hb, hlook]

theorem resolveSession_missing (store : Store) (req : ChatRequest)
    (freshId : String) (t1 : Nat) (sid : String)
    (hsid : req.session_id = some sid) (hne : sid ≠ "")
    (hlook : Store.lookup store sid = none) :
    resolveSession store req freshId t1 = Except.error ApiError.notFound := by
  have hb : (sid == "") = false := by simpa using hne
  simp [resolveSession, hsid, hb, hlook]

theorem cleanup_removed_iff (store : Store) (now H : Nat) (k : String) :
    k ∈ (cleanup_sessions store now H).2 ↔
      ∃ p, p ∈ store ∧ p.1 = k ∧ p.2.last_active + H < now := by
  simp only [cleanup_sessions, List.mem_map, List.mem_filter]
  constructor
  · rintro ⟨p, ⟨hp, hc⟩, rfl⟩
    exact ⟨p, hp, rfl, by simpa using hc⟩
  · rintro ⟨p, hp, rfl, hc⟩
    exact ⟨p, ⟨hp, by simpa using hc⟩, rfl⟩

theorem cleanup_store_eq (store : Store) (now H : Nat)
    (hnodup : (store.map Prod.fst).Nodup) :
    (cleanup_sessions store now H).1 =
      store.filter (fun p => !decide (p.2.last_active + H < now)) := by
  have hinj := List.inj_on_of_nodup_map hnodup
  simp only [cleanup_sessions]
  rw [foldl_eraseKey]
  apply List.filter_congr
  intro p hp
  congr 1
  by_cases hc : p.2.last_active + H < now
  · rw [decide_eq_true hc]
    have hmem : p.1 ∈ (store.filter
        (fun q => decide (q.2.last_active + H < now))).map (fun q => q.1) :=
      List.mem_map.mpr ⟨p, List.mem_filter.mpr ⟨hp, by simpa using hc⟩, rfl⟩
    simpa using hmem
  · rw [decide_eq_false hc]
    have hnot : p.1 ∉ (store.filter
        (fun q => decide (q.2.last_active + H < now))).map (fun q => q.1) := by
      intro hmem
      obtain ⟨q, hq, hq1⟩ := List.mem_map.mp hmem
      obtain ⟨hqs, hqc⟩ := List.mem_filter.mp hq
      have hqp : q = p := hinj hqs hp hq1
      rw [hqp] at hqc
      exact hc (by simpa using hqc)
    simpa using hnot

theorem cleanup_second_sweep (store : Store) (now H : Nat)
    (hnodup : (store.map Prod.fst).Nodup) :
    (cleanup_sessions (cleanup_sessions store now H).1 now H).2 = [] := by
  rw [cleanup_store_eq store now H hnodup]
  simp only [cleanup_sessions]
  rw [List.filter_filter]
  have h1 : store.filter
      (fun a => decide (a.2.last_active + H < now) &&
        !decide (a.2.last_active + H < now)) = [] := by
    simp
  rw [h1, List.map_nil]

theorem Store.lookup_append_left (s l : Store) (k : String) (v : SessionInfo)
    (h : Store.lookup s k = some v) : Store.lookup (s ++ l) k = some v := by
  rw [Store.lookup_append, h]
  rfl

theorem chat_eq_no_id (env : Env) (provider : Provider) (store : Store)
    (req : ChatRequest) (freshId : String) (t1 t2 t3 : Nat)
    (hsid : req.session_id = none) :
    chat env provider store req freshId t1 t2 t3 =
      (store ++ [(freshId,
         finishedSession env provider req (newSessionResolved req freshId t1) t2 t3)],
       Except.ok { reply := turnReply env provider req req.messages t3,
                   session_id := freshId }) := by
  unfold chat
  rw [resolveSession_no_id store req freshId t1 hsid]
  rfl

theorem chat_eq_empty_id (env : Env) (provider : Provider) (store : Store)
    (req : ChatRequest) (freshId : String) (t1 t2 t3 : Nat)
    (hsid : req.session_id = some "") :
    chat env provider store req freshId t1 t2 t3 =
      (store ++ [(freshId,
         finishedSession env provider req (newSessionResolved req freshId t1) t2 t3)],
       Except.ok { reply := turnReply env provider req req.messages t3,
                   session_id := freshId }) := by
  unfold chat
  rw [resolveSession_empty_id store req freshId t1 hsid]
  rfl

theorem chat_eq_found (env : Env) (provider : Provider) (store : Store)
    (req : ChatRequest) (freshId : String) (t1 t2 t3 : Nat)
    (sid : String) (sess : SessionInfo)
    (hsid : req.session_id = some sid) (hne : sid ≠ "")
    (hlook : Store.lookup store sid = some sess) :
    chat env provider store req freshId t1 t2 t3 =
      (Store.update store sid
         (finishedSession env provider req
           { key := sid, isNew := false,
             session := { sess with messages := sess.messages ++ req.messages } }
           t2 t3),
       Except.ok { reply :=
                     turnReply env provider req (sess.messages ++ req.messages) t3,
                   session_id := sess.session_id }) := by
  unfold chat
  rw [resolveSession_found store req freshId t1 sid sess hsid hne hlook]
  rfl

theorem chat_eq_missing (env : Env) (provider : Provider) (store : Store)
    (req : ChatRequest) (freshId : String) (t1 t2 t3 : Nat) (sid : String)
    (hsid : req.session_id = some sid) (hne : sid ≠ "")
    (hlook : Store.lookup store sid = none) :
    chat env provider store req freshId t1 t2 t3 =
      (store, Except.error ApiError.notFound) := by
  unfold chat
  rw [resolveSession_missing store req freshId t1 sid hsid hne hlook]

theorem resolveSession_ok_old (store : Store) (req : ChatRequest)
    (freshId : String) (t1 : Nat) (r : Resolved)
    (hres : resolveSession store req freshId t1 = Except.ok r)
    (hold : r.isNew = false) :
    ∃ sess, Store.lookup store r.key = some sess ∧
      r.session = { sess with messages := sess.messages ++ req.messages } := by
  cases hsid : req.session_id with
  | none =>
      rw [resolveSession_no_id store req freshId t1 hsid] at hres
      have hr : newSessionResolved req freshId t1 = r := by simpa using hres
      rw [← hr] at hold
      simp [newSessionResolved] at hold
  | some sid =>
      by_cases he : sid = ""
      · subst he
        rw [resolveSession_empty_id store req freshId t1 hsid] at hres
        have hr : newSessionResolved req freshId t1 = r := by simpa using hres
        rw [← hr] at hold
        simp [newSessionResolved] at hold
      · cases hl : Store.lookup store sid with
        | none =>
            rw [resolveSession_missing store req freshId t1 sid hsid he hl] at hres
            exact absurd hres (by simp)
        | some sess =>
            rw [resolveSession_found store req freshId t1 sid sess hsid he hl] at hres
            have hr : ({ key := sid,
                         isNew := false,
                         session := { sess with
                                      messages := sess.messages ++ req.messages } } :
                Resolved) = r := by
              simpa using hres
            refine ⟨sess, ?_, ?_⟩
            · rw [← hr]
              exact hl
            · rw [← hr]

theorem call_groq_of_provider (env : Env) (provider : Provider)
    (ms : List Message) (m : Option String) (t : Rat) (s : String)
    (hkey : strTruthy env.groq_api_key = true)
    (h : provider (ms.map toLC) (resolveModel m env) t = Except.ok s) :
    call_groq_with_langchain env provider ms m t = some s := by
  unfold call_groq_with_langchain
  rw [hkey]
  show (match provider (ms.map toLC) (resolveModel m env) t with
        | Except.ok s => some s
        | Except.error _ => none) = some s
  rw [h]

theorem turnCompletion_of_call (env : Env) (provider : Provider)
    (req : ChatRequest) (history : List Message) (s : String)
    (h : call_groq_with_langchain env provider history req.model
           (resolveTemperature req.temperature) = some s) :
    turnCompletion env provider req history = s := by
  unfold turnCompletion
  rw [h]

/-! ### The claims -/

/-- C1: a chat request with no `session_id` creates exactly one new session
(the store becomes the old store plus a single appended entry), and after the
turn that session's history is exactly the submitted messages followed by the
single generated assistant reply. -/
theorem claim1_no_id_creates_one_session (env : Env) (provider : Provider)
    (store : Store) (req : ChatRequest) (freshId : String) (t1 t2 t3 : Nat)
    (hsid : req.session_id = none) :
    chat env provider store req freshId t1 t2 t3 =
      (store ++ [(freshId,
         { session_id := freshId, created_at := t1, last_active := t2,
           messages := req.messages ++
             [turnReply env provider req req.messages t3] })],
       Except.ok { reply := turnReply env provider req req.messages t3,
                   session_id := freshId }) ∧
    (turnReply env provider req req.messages t3).role = Role.assistant := by
  constructor
  · unfold chat
    rw [resolveSession_no_id store req freshId t1 hsid]
    rfl
  · rfl

/-- Witness for C1 at a concrete input. -/
theorem claim1_witness :
    reqHello.session_id = none ∧
    (chat envNoKey provFail [] reqHello "s1" 1 2 3 =
      ([("s1", { session_id := "s1", created_at := 1, last_active := 2,
                 messages := reqHello.messages ++
                   [turnReply envNoKey provFail reqHello reqHello.messages 3] })],
       Except.ok { reply := turnReply envNoKey provFail reqHello reqHello.messages 3,
                   session_id := "s1" }) ∧
     (turnReply envNoKey provFail reqHello reqHello.messages 3).role =
       Role.assistant) :=
  ⟨rfl, claim1_no_id_creates_one_session envNoKey provFail [] reqHello "s1" 1 2 3 rfl⟩

/-- C2: a chat request with a `session_id` present in the store leaves the
prior history as a prefix and appends exactly the submitted messages followed
by the assistant reply; the rest of the session record keeps its
`session_id` and `created_at`. -/
theorem claim2_existing_session_append (env : Env) (provider : Provider)
    (store : Store) (req : ChatRequest) (freshId : String) (t1 t2 t3 : Nat)
    (sid : String) (sess : SessionInfo)
    (hsid : req.session_id = some sid) (hne : sid ≠ "")
    (hlook : Store.lookup store sid = some sess) :
    chat env provider store req freshId t1 t2 t3 =
      (Store.update store sid
         { sess with
           last_active := t2,
           messages := (sess.messages ++ req.messages) ++
             [turnReply env provider req (sess.messages ++ req.messages) t3] },
       Except.ok { reply :=
                     turnReply env provider req (sess.messages ++ req.messages) t3,
                   session_id := sess.session_id }) := by
  unfold chat
  rw [resolveSession_found store req freshId t1 sid sess hsid hne hlook]
  rfl

/-- Witness for C2 at a concrete input. -/
theorem claim2_witness :
    reqHelloSid.session_id = some "aaa" ∧ "aaa" ≠ "" ∧
    Store.lookup storeA "aaa" = some sessA ∧
    chat envNoKey provFail storeA reqHelloSid "f" 5 6 7 =
      (Store.update storeA "aaa"
         { sessA with
           last_active := 6,
           messages := (sessA.messages ++ reqHelloSid.messages) ++
             [turnReply envNoKey provFail reqHelloSid
                (sessA.messages ++ reqHelloSid.messages) 7] },
       Except.ok { reply := turnReply envNoKey provFail reqHelloSid
                     (sessA.messages ++ reqHelloSid.messages) 7,
                   session_id := "aaa" }) :=
  ⟨rfl, by decide, rfl,
   claim2_existing_session_append envNoKey provFail storeA reqHelloSid "f" 5 6 7
     "aaa" sessA rfl (by decide) rfl⟩

/-- C3 as stated is false: the handler tests `if req.session_id:` with Python
truthiness, so a request carrying the empty string as `session_id` — an id
that is not present in the store — is NOT rejected with NotFound; it takes the
creation branch and adds a new session. -/
theorem claim3_counterexample :
    Store.lookup [] "" = none ∧
    (chat envNoKey provFail [] reqHelloEmptySid "s1" 1 2 3).2 ≠
      Except.error ApiError.notFound ∧
    chat envNoKey provFail [] reqHelloEmptySid "s1" 1 2 3 =
      ([("s1", { session_id := "s1", created_at := 1, last_active := 2,
                 messages := reqHelloEmptySid.messages ++
                   [turnReply envNoKey provFail reqHelloEmptySid
                      reqHelloEmptySid.messages 3] })],
       Except.ok { reply := turnReply envNoKey provFail reqHelloEmptySid
                     reqHelloEmptySid.messages 3,
                   session_id := "s1" }) := by
  refine ⟨rfl, ?_, ?_⟩
  · intro h
    simp [chat, resolveSession, reqHelloEmptySid] at h
  · unfold chat
    rw [resolveSession_empty_id [] reqHelloEmptySid "s1" 1 rfl]
    rfl

/-- C3 amended: a chat request carrying a NONEMPTY `session_id` that is not
present in the store fails with NotFound and leaves the store exactly as it
was; a request whose `session_id` is the empty string is treated as carrying
none (Python truthiness) and takes the creation path instead. -/
theorem claim3_amended_unknown_id_rejected (env : Env) (provider : Provider)
    (store : Store) (req : ChatRequest) (freshId : String) (t1 t2 t3 : Nat)
    (sid : String)
    (hsid : req.session_id = some sid) (hne : sid ≠ "")
    (hlook : Store.lookup store sid = none) :
    chat env provider store req freshId t1 t2 t3 =
      (store, Except.error ApiError.notFound) := by
  unfold chat
  rw [resolveSession_missing store req freshId t1 sid hsid hne hlook]

/-- Witness for the amended C3 at a concrete input. -/
theorem claim3_witness :
    reqHelloGhostSid.session_id = some "ghost" ∧ "ghost" ≠ "" ∧
    Store.lookup storeA "ghost" = none ∧
    chat envNoKey provFail storeA reqHelloGhostSid "f" 5 6 7 =
      (storeA, Except.error ApiError.notFound) :=
  ⟨rfl, by decide, rfl,
   claim3_amended_unknown_id_rejected envNoKey provFail storeA reqHelloGhostSid
     "f" 5 6 7 "ghost" rfl (by decide) rfl⟩

/-- C4: with no provider credential configured, the turn succeeds and the
assistant reply's content is the fixed-format fallback built from the most
recent user message of the resolved session's full history (`demoFallback`
embeds it between the demo prefix and the `GROQ_API_KEY` setup notice;
`lastUserContent` is the empty string when no user message exists). -/
theorem claim4_demo_mode_reply (env : Env) (provider : Provider) (store : Store)
    (req : ChatRequest) (freshId : String) (t1 t2 t3 : Nat) (r : Resolved)
    (hkey : strTruthy env.groq_api_key = false)
    (hres : resolveSession store req freshId t1 = Except.ok r) :
    (chat env provider store req freshId t1 t2 t3).2 =
      Except.ok { reply := turnReply env provider req r.session.messages t3,
                  session_id := r.session.session_id } ∧
    (turnReply env provider req r.session.messages t3).content =
      demoFallback (lastUserContent r.session.messages) := by
  constructor
  · unfold chat
    rw [hres]
    rfl
  · unfold turnReply turnCompletion
    rw [call_groq_none env provider r.session.messages req.model
          (resolveTemperature req.temperature) hkey]

/-- Witness for C4: the spec's example scenario. A session is created, then
`{role: "user", content: "hello"}` is sent to it with no credential set; the
reply is the exact demo string and the session then holds 2 messages. -/
theorem claim4_witness :
    strTruthy envNoKey.groq_api_key = false ∧
    ((chat envNoKey provFail storeA reqHelloSid "f" 5 6 7).2 =
       Except.ok { reply := turnReply envNoKey provFail reqHelloSid
                     resA.session.messages 7,
                   session_id := resA.session.session_id } ∧
     (turnReply envNoKey provFail reqHelloSid resA.session.messages 7).content =
       demoFallback (lastUserContent resA.session.messages)) ∧
    (turnReply envNoKey provFail reqHelloSid resA.session.messages 7).content =
      "(Demo mode) You said: hello\nSet GROQ_API_KEY to enable real model responses." ∧
    (Store.lookup (chat envNoKey provFail storeA reqHelloSid "f" 5 6 7).1 "aaa").map
        (fun s => s.messages.length) = some 2 :=
  ⟨rfl,
   claim4_demo_mode_reply envNoKey provFail storeA reqHelloSid "f" 5 6 7 resA rfl rfl,
   rfl, rfl⟩

/-- C5: for EVERY provider behaviour (including one that always raises), once
the session is resolved the turn returns `Except.ok` with an assistant reply —
no provider failure propagates — the reply is appended to the stored session,
and whenever the provider path yields no completion (missing credential,
failing SDK imports, or a raised exception) the reply is the fallback string. -/
theorem claim5_provider_failure_absorbed (env : Env) (provider : Provider)
    (store : Store) (req : ChatRequest) (freshId : String) (t1 t2 t3 : Nat)
    (r : Resolved)
    (hres : resolveSession store req freshId t1 = Except.ok r)
    (hfresh : r.isNew = true → Store.lookup store r.key = none) :
    (chat env provider store req freshId t1 t2 t3).2 =
      Except.ok { reply := turnReply env provider req r.session.messages t3,
                  session_id := r.session.session_id } ∧
    (turnReply env provider req r.session.messages t3).role = Role.assistant ∧
    Store.lookup (chat env provider store req freshId t1 t2 t3).1 r.key =
      some (finishedSession env provider req r t2 t3) ∧
    (call_groq_with_langchain env provider r.session.messages req.model
        (resolveTemperature req.temperature) = none →
      (turnReply env provider req r.session.messages t3).content =
        demoFallback (lastUserContent r.session.messages)) := by
  refine ⟨?_, rfl, ?_, ?_⟩
  · unfold chat
    rw [hres]
    rfl
  · unfold chat
    rw [hres]
    show Store.lookup
        (if r.isNew then
           store ++ [(r.key, finishedSession env provider req r t2 t3)]
         else Store.update store r.key (finishedSession env provider req r t2 t3))
        r.key =
      some (finishedSession env provider req r t2 t3)
    cases hnew : r.isNew with
    | true =>
        simp only [hnew, if_true]
        exact Store.lookup_append_single_self store r.key _ (hfresh hnew)
    | false =>
        simp only [hnew, Bool.false_eq_true, if_false]
        obtain ⟨sess, hlook, -⟩ :=
          resolveSession_ok_old store req freshId t1 r hres hnew
        exact Store.lookup_update_self store r.key _ sess hlook
  · intro hnone
    unfold turnReply turnCompletion
    rw [hnone]

/-- Witness for C5 at a concrete input, with the always-raising provider. -/
theorem claim5_witness :
    resolveSession storeA reqHelloSid "f" 5 = Except.ok resA ∧
    (resA.isNew = true → Store.lookup storeA resA.key = none) ∧
    ((chat envNoKey provFail storeA reqHelloSid "f" 5 6 7).2 =
       Except.ok { reply := turnReply envNoKey provFail reqHelloSid
                     resA.session.messages 7,
                   session_id := resA.session.session_id } ∧
     (turnReply envNoKey provFail reqHelloSid resA.session.messages 7).role =
       Role.assistant ∧
     Store.lookup (chat envNoKey provFail storeA reqHelloSid "f" 5 6 7).1
         resA.key =
       some (finishedSession envNoKey provFail reqHelloSid resA 6 7) ∧
     (call_groq_with_langchain envNoKey provFail resA.session.messages
         reqHelloSid.model (resolveTemperature reqHelloSid.temperature) = none →
       (turnReply envNoKey provFail reqHelloSid resA.session.messages 7).content =
         demoFallback (lastUserContent resA.session.messages))) :=
  ⟨rfl, fun h => by simp [resA] at h,
   claim5_provider_failure_absorbed envNoKey provFail storeA reqHelloSid "f"
     5 6 7 resA rfl (fun h => by simp [resA] at h)⟩

/-- C8 as stated is false: both overrides are resolved with Python truthiness,
not mere presence. A caller-supplied `temperature = 0.0` is falsy, so the
provider receives `0.2` instead of the override; a caller-supplied
`model = ""` is falsy, so the provider receives the process-wide default
instead of the override. Run with a provider that reports the temperature it
received: it reports a nonzero temperature although the caller supplied `0`;
run with a provider echoing the model it received: it echoes `"envmodel"`, the
environment default, although the caller supplied `""`. -/
theorem claim8_counterexample :
    reqFalsyOverrides.temperature = some 0 ∧
    reqFalsyOverrides.model = some "" ∧
    (chat envWithKey provProbeTemp [] reqFalsyOverrides "s1" 1 2 3).2 =
      Except.ok { reply := { role := Role.assistant, content := "temp-nonzero",
                             timestamp := 3 },
                  session_id := "s1" } ∧
    (chat envWithKey provEchoModel [] reqFalsyOverrides "s1" 1 2 3).2 =
      Except.ok { reply := { role := Role.assistant, content := "envmodel",
                             timestamp := 3 },
                  session_id := "s1" } := by
  have htz : (((2 : Rat)/10) == 0) = false := by
    rw [beq_eq_false_iff_ne]
    norm_num
  have hres : resolveTemperature reqFalsyOverrides.temperature = 2/10 := by
    show resolveTemperature (some 0) = 2/10
    simp [resolveTemperature]
  have hprov : provProbeTemp (reqFalsyOverrides.messages.map toLC)
      (resolveModel reqFalsyOverrides.model envWithKey)
      (resolveTemperature reqFalsyOverrides.temperature) =
      Except.ok "temp-nonzero" := by
    rw [hres]
    show Except.ok (if ((2 : Rat)/10) == 0 then "temp-zero" else "temp-nonzero") = _
    rw [htz]
    rfl
  have hcall := call_groq_of_provider envWithKey provProbeTemp
    reqFalsyOverrides.messages reqFalsyOverrides.model
    (resolveTemperature reqFalsyOverrides.temperature) "temp-nonzero" rfl hprov
  have hcomp := turnCompletion_of_call envWithKey provProbeTemp reqFalsyOverrides
    reqFalsyOverrides.messages "temp-nonzero" hcall
  refine ⟨rfl, rfl, ?_, ?_⟩
  · rw [chat_eq_no_id envWithKey provProbeTemp [] reqFalsyOverrides "s1" 1 2 3 rfl]
    show Except.ok
        ({ reply := { role := Role.assistant,
                      content := turnCompletion envWithKey provProbeTemp
                        reqFalsyOverrides reqFalsyOverrides.messages,
                      timestamp := 3 },
           session_id := "s1" } : ChatResponse) = _
    rw [hcomp]
  · have hprovE : provEchoModel (reqFalsyOverrides.messages.map toLC)
        (resolveModel reqFalsyOverrides.model envWithKey)
        (resolveTemperature reqFalsyOverrides.temperature) =
        Except.ok "envmodel" := rfl
    have hcallE := call_groq_of_provider envWithKey provEchoModel
      reqFalsyOverrides.messages reqFalsyOverrides.model
      (resolveTemperature reqFalsyOverrides.temperature) "envmodel" rfl hprovE
    have hcompE := turnCompletion_of_call envWithKey provEchoModel
      reqFalsyOverrides reqFalsyOverrides.messages "envmodel" hcallE
    rw [chat_eq_no_id envWithKey provEchoModel [] reqFalsyOverrides "s1" 1 2 3 rfl]
    show Except.ok
        ({ reply := { role := Role.assistant,
                      content := turnCompletion envWithKey provEchoModel
                        reqFalsyOverrides reqFalsyOverrides.messages,
                      timestamp := 3 },
           session_id := "s1" } : ChatResponse) = _
    rw [hcompE]

/-- C8 amended: when a credential is configured, the provider is invoked with
the resolved session's ENTIRE message history (prior history plus the new
messages), the model resolved as the caller's override when supplied AND
nonempty (else the process-wide default), and the temperature resolved as the
caller's override when supplied AND nonzero (else `0.2`): the reply content is
exactly the provider's answer on those arguments (or the fallback if the
provider raises). -/
theorem claim8_amended_resolved_call (env : Env) (provider : Provider)
    (store : Store) (req : ChatRequest) (freshId : String) (t1 t2 t3 : Nat)
    (r : Resolved)
    (hkey : strTruthy env.groq_api_key = true)
    (hres : resolveSession store req freshId t1 = Except.ok r) :
    (chat env provider store req freshId t1 t2 t3).2 =
      Except.ok { reply := turnReply env provider req r.session.messages t3,
                  session_id := r.session.session_id } ∧
    (turnReply env provider req r.session.messages t3).content =
      (match provider (r.session.messages.map toLC) (resolveModel req.model env)
               (resolveTemperature req.temperature) with
       | Except.ok s => s
       | Except.error _ => demoFallback (lastUserContent r.session.messages)) := by
  constructor
  · unfold chat
    rw [hres]
    rfl
  · show turnCompletion env provider req r.session.messages = _
    unfold turnCompletion call_groq_with_langchain
    rw [hkey]
    show (match
        (match provider (r.session.messages.map toLC) (resolveModel req.model env)
                 (resolveTemperature req.temperature) with
         | Except.ok s => some s
         | Except.error _ => none) with
      | some s => s
      | none => demoFallback (lastUserContent r.session.messages)) = _
    cases provider (r.session.messages.map toLC) (resolveModel req.model env)
        (resolveTemperature req.temperature) with
    | ok s => rfl
    | error e => rfl

/-- Witness for the amended C8 at a concrete input with the model-echoing
provider. -/
theorem claim8_witness :
    strTruthy envWithKey.groq_api_key = true ∧
    resolveSession storeA reqHelloSid "f" 5 = Except.ok resA ∧
    ((chat envWithKey provEchoModel storeA reqHelloSid "f" 5 6 7).2 =
       Except.ok { reply := turnReply envWithKey provEchoModel reqHelloSid
                     resA.session.messages 7,
                   session_id := resA.session.session_id } ∧
     (turnReply envWithKey provEchoModel reqHelloSid resA.session.messages 7).content =
       (match provEchoModel (resA.session.messages.map toLC)
                (resolveModel reqHelloSid.model envWithKey)
                (resolveTemperature reqHelloSid.temperature) with
        | Except.ok s => s
        | Except.error _ => demoFallback (lastUserContent resA.session.messages))) :=
  ⟨rfl, rfl,
   claim8_amended_resolved_call envWithKey provEchoModel storeA reqHelloSid "f"
     5 6 7 resA rfl rfl⟩

/-- C10: a chat turn touches at most the session it resolves (or creates):
the lookup of every other key is unchanged, and when the turn runs against an
existing session, that session keeps its `session_id` and `created_at`. -/
theorem claim10_frame (env : Env) (provider : Provider) (store : Store)
    (req : ChatRequest) (freshId : String) (t1 t2 t3 : Nat) :
    (∀ k, k ≠ resolvedKey req freshId →
       Store.lookup (chat env provider store req freshId t1 t2 t3).1 k =
         Store.lookup store k) ∧
    (∀ sid sess, req.session_id = some sid → sid ≠ "" →
       Store.lookup store sid = some sess →
       ((Store.lookup (chat env provider store req freshId t1 t2 t3).1 sid).map
           (fun s => s.session_id) = some sess.session_id ∧
        (Store.lookup (chat env provider store req freshId t1 t2 t3).1 sid).map
           (fun s => s.created_at) = some sess.created_at)) := by
  constructor
  · intro k hk
    cases hsid : req.session_id with
    | none =>
        have hk' : k ≠ freshId := by
          simpa [resolvedKey, hsid] using hk
        rw [chat_eq_no_id env provider store req freshId t1 t2 t3 hsid]
        exact Store.lookup_append_single_ne store k freshId _ hk'
    | some sid =>
        by_cases he : sid = ""
        · subst he
          have hk' : k ≠ freshId := by
            simpa [resolvedKey, hsid] using hk
          rw [chat_eq_empty_id env provider store req freshId t1 t2 t3 hsid]
          exact Store.lookup_append_single_ne store k freshId _ hk'
        · have hk' : k ≠ sid := by
            have hb : (sid == "") = false := by simpa using he
            simpa [resolvedKey, hsid, hb] using hk
          cases hl : Store.lookup store sid with
          | none =>
              rw [chat_eq_missing env provider store req freshId t1 t2 t3 sid
                    hsid he hl]
          | some sess =>
              rw [chat_eq_found env provider store req freshId t1 t2 t3 sid sess
                    hsid he hl]
              exact Store.lookup_update_ne store sid k _ hk'
  · intro sid sess hsid hne hlook
    rw [chat_eq_found env provider store req freshId t1 t2 t3 sid sess
          hsid hne hlook]
    have hupd := Store.lookup_update_self store sid
      (finishedSession env provider req
        { key := sid, isNew := false,
          session := { sess with messages := sess.messages ++ req.messages } }
        t2 t3) sess hlook
    constructor
    · exact congrArg (Option.map (fun s => s.session_id)) hupd
    · exact congrArg (Option.map (fun s => s.created_at)) hupd

/-- Witness for C10 at a concrete input: the other session `"bbb"` is
untouched and `"aaa"` keeps its identity fields. -/
theorem claim10_witness :
    Store.lookup (chat envNoKey provFail storeAB reqHelloSid "f" 5 6 7).1 "bbb" =
      Store.lookup storeAB "bbb" ∧
    (Store.lookup (chat envNoKey provFail storeAB reqHelloSid "f" 5 6 7).1 "aaa").map
        (fun s => s.session_id) = some sessA.session_id ∧
    (Store.lookup (chat envNoKey provFail storeAB reqHelloSid "f" 5 6 7).1 "aaa").map
        (fun s => s.created_at) = some sessA.created_at :=
  ⟨(claim10_frame envNoKey provFail storeAB reqHelloSid "f" 5 6 7).1 "bbb"
     (by decide),
   (claim10_frame envNoKey provFail storeAB reqHelloSid "f" 5 6 7).2 "aaa" sessA
     rfl (by decide) rfl⟩

/-- C6: the cleanup sweep removes exactly the sessions whose `last_active` is
strictly older than `now − max_age` (i.e. `last_active + max_age < now`),
returns exactly their identifiers, keeps every other session unchanged in
place, and an immediate second sweep at the same `now` removes nothing. -/
theorem claim6_cleanup_exact (store : Store) (now H : Nat)
    (hnodup : (store.map Prod.fst).Nodup) :
    (∀ k, k ∈ (cleanup_sessions store now H).2 ↔
       ∃ p, p ∈ store ∧ p.1 = k ∧ p.2.last_active + H < now) ∧
    (cleanup_sessions store now H).1 =
      store.filter (fun p => !decide (p.2.last_active + H < now)) ∧
    (cleanup_sessions (cleanup_sessions store now H).1 now H).2 = [] :=
  ⟨fun k => cleanup_removed_iff store now H k,
   cleanup_store_eq store now H hnodup,
   cleanup_second_sweep store now H hnodup⟩

/-- Witness for C6 on a concrete two-session store: sweeping at time 100 with
threshold 60 removes exactly the stale session and a second sweep removes
nothing. -/
theorem claim6_witness :
    (cleanup_sessions storeOldNew 100 60).2 = ["old"] ∧
    (cleanup_sessions storeOldNew 100 60).1 =
      storeOldNew.filter (fun p => !decide (p.2.last_active + 60 < 100)) ∧
    (cleanup_sessions (cleanup_sessions storeOldNew 100 60).1 100 60).2 = [] :=
  ⟨rfl, (claim6_cleanup_exact storeOldNew 100 60 (by decide)).2.1,
   (claim6_cleanup_exact storeOldNew 100 60 (by decide)).2.2⟩

/-- C7: `last_active ≥ created_at` holds for the session built by
`create_session` and is preserved by every chat turn, and (for a
non-decreasing clock, `t1 ≤ t2` and no stored `last_active` beyond the new
reading `t2`) each stored session's `last_active` never decreases across a
turn. -/
theorem claim7_timestamps (env : Env) (provider : Provider) (store : Store)
    (req : ChatRequest) (freshId : String) (t1 t2 t3 : Nat)
    (hWF : ∀ p ∈ store, (Prod.snd p).created_at ≤ (Prod.snd p).last_active)
    (ht : t1 ≤ t2)
    (hclock : ∀ p ∈ store, (Prod.snd p).last_active ≤ t2) :
    (∀ p ∈ (create_session store freshId t1).1,
       (Prod.snd p).created_at ≤ (Prod.snd p).last_active) ∧
    (∀ p ∈ (chat env provider store req freshId t1 t2 t3).1,
       (Prod.snd p).created_at ≤ (Prod.snd p).last_active) ∧
    (∀ k v w, Store.lookup store k = some v →
       Store.lookup (chat env provider store req freshId t1 t2 t3).1 k = some w →
       v.last_active ≤ w.last_active) := by
  refine ⟨?_, ?_, ?_⟩
  · intro p hp
    rcases List.mem_append.mp hp with hmem | hnew
    · exact hWF p hmem
    · rw [List.mem_singleton.mp hnew]
  · intro p hp
    cases hsid : req.session_id with
    | none =>
        rw [chat_eq_no_id env provider store req freshId t1 t2 t3 hsid] at hp
        rcases List.mem_append.mp hp with hmem | hnew
        · exact hWF p hmem
        · rw [List.mem_singleton.mp hnew]
          exact ht
    | some sid =>
        by_cases he : sid = ""
        · subst he
          rw [chat_eq_empty_id env provider store req freshId t1 t2 t3 hsid] at hp
          rcases List.mem_append.mp hp with hmem | hnew
          · exact hWF p hmem
          · rw [List.mem_singleton.mp hnew]
            exact ht
        · cases hl : Store.lookup store sid with
          | none =>
              rw [chat_eq_missing env provider store req freshId t1 t2 t3 sid
                    hsid he hl] at hp
              exact hWF p hp
          | some sess =>
              rw [chat_eq_found env provider store req freshId t1 t2 t3 sid sess
                    hsid he hl] at hp
              rcases Store.mem_update store sid _ p hp with hpe | hmem
              · rw [hpe]
                obtain ⟨q, hq, -, hq2⟩ := Store.lookup_mem store sid sess hl
                have h1 := hWF q hq
                have h2 := hclock q hq
                rw [hq2] at h1 h2
                exact Nat.le_trans h1 h2
              · exact hWF p hmem
  · intro k v w hv hw
    cases hsid : req.session_id with
    | none =>
        rw [chat_eq_no_id env provider store req freshId t1 t2 t3 hsid] at hw
        have hleft := Store.lookup_append_left store
          [(freshId,
            finishedSession env provider req (newSessionResolved req freshId t1)
              t2 t3)] k v hv
        have hvw : v = w := Option.some.inj (hleft.symm.trans hw)
        rw [hvw]
    | some sid =>
        by_cases he : sid = ""
        · subst he
          rw [chat_eq_empty_id env provider store req freshId t1 t2 t3 hsid] at hw
          have hleft := Store.lookup_append_left store
            [(freshId,
              finishedSession env provider req (newSessionResolved req freshId t1)
                t2 t3)] k v hv
          have hvw : v = w := Option.some.inj (hleft.symm.trans hw)
          rw [hvw]
        · cases hl : Store.lookup store sid with
          | none =>
              rw [chat_eq_missing env provider store req freshId t1 t2 t3 sid
                    hsid he hl] at hw
              have hvw : v = w := Option.some.inj (hv.symm.trans hw)
              rw [hvw]
          | some sess =>
              rw [chat_eq_found env provider store req freshId t1 t2 t3 sid sess
                    hsid he hl] at hw
              by_cases hk : k = sid
              · subst hk
                have hvs : v = sess := Option.some.inj (hv.symm.trans hl)
                have hupd := Store.lookup_update_self store k
                  (finishedSession env provider req
                    { key := k, isNew := false,
                      session := { sess with
                                   messages := sess.messages ++ req.messages } }
                    t2 t3) sess hl
                have hwf : w = finishedSession env provider req
                    { key := k, isNew := false,
                      session := { sess with
                                   messages := sess.messages ++ req.messages } }
                    t2 t3 := (Option.some.inj (hupd.symm.trans hw)).symm
                rw [hvs, hwf]
                obtain ⟨q, hq, -, hq2⟩ := Store.lookup_mem store k sess hl
                have h2 := hclock q hq
                rw [hq2] at h2
                exact h2
              · have hne := Store.lookup_update_ne store sid k
                  (finishedSession env provider req
                    { key := sid, isNew := false,
                      session := { sess with
                                   messages := sess.messages ++ req.messages } }
                    t2 t3) hk
                have hvw : v = w :=
                  Option.some.inj (hv.symm.trans (hne.symm.trans hw))
                rw [hvw]

/-- Witness for C7 on a concrete store, clock readings 5 ≤ 6, showing the
instantiated invariant on the stored session after a turn. -/
theorem claim7_witness :
    (∀ p ∈ storeA, (Prod.snd p).created_at ≤ (Prod.snd p).last_active) ∧
    (5 : Nat) ≤ 6 ∧
    (∀ p ∈ storeA, (Prod.snd p).last_active ≤ 6) ∧
    (∀ p ∈ (chat envNoKey provFail storeA reqHelloSid "f" 5 6 7).1,
       (Prod.snd p).created_at ≤ (Prod.snd p).last_active) ∧
    (∀ k v w, Store.lookup storeA k = some v →
       Store.lookup (chat envNoKey provFail storeA reqHelloSid "f" 5 6 7).1 k =
         some w →
       v.last_active ≤ w.last_active) :=
  ⟨by decide, by decide, by decide,
   (claim7_timestamps envNoKey provFail storeA reqHelloSid "f" 5 6 7
      (by decide) (by decide) (by decide)).2.1,
   (claim7_timestamps envNoKey provFail storeA reqHelloSid "f" 5 6 7
      (by decide) (by decide) (by decide)).2.2⟩

/-- C9 as stated is false: pydantic's `List[Message]` places no
minimum-length constraint on `messages`, so a request with an EMPTY messages
list passes validation and is processed normally — it is not rejected, and it
creates (or mutates) a session. -/
theorem claim9_counterexample :
    rawEmptyMessages.messages = some [] ∧
    (handle_chat_raw envNoKey provFail [] rawEmptyMessages "s1" 0 1 2 3).2 ≠
      Except.error ApiError.validationError ∧
    handle_chat_raw envNoKey provFail [] rawEmptyMessages "s1" 0 1 2 3 =
      ([("s1", { session_id := "s1",
                 created_at := 1,
                 last_active := 2,
                 messages := [{ role := Role.assistant,
                                content := demoFallback "",
                                timestamp := 3 }] })],
       Except.ok { reply := { role := Role.assistant,
                              content := demoFallback "",
                              timestamp := 3 },
                   session_id := "s1" }) := by
  refine ⟨rfl, ?_, rfl⟩
  intro hcontra
  have himp : Except.ok ({ reply := { role := Role.assistant,
                                      content := demoFallback "",
                                      timestamp := 3 },
                           session_id := "s1" } : ChatResponse) =
      Except.error ApiError.validationError := hcontra
  cases himp

/-- C9 amended: a request body that fails pydantic validation — a missing
`messages` field, a message missing a required field, or an invalid role
literal — is rejected as a client-facing validation failure before any
session is created or mutated; an empty `messages` list, however, passes
validation and is processed normally. -/
theorem claim9_amended_validation (env : Env) (provider : Provider)
    (store : Store) (raw : RawChatRequest) (freshId : String) (t0 t1 t2 t3 : Nat)
    (hbad : parseChatRequest t0 raw = none) :
    handle_chat_raw env provider store raw freshId t0 t1 t2 t3 =
      (store, Except.error ApiError.validationError) := by
  unfold handle_chat_raw
  rw [hbad]

/-- Witness for the amended C9: a body whose single message has the invalid
role `"robot"` is rejected and the store is untouched. -/
theorem claim9_witness :
    parseChatRequest 0 rawBadRole = none ∧
    handle_chat_raw envNoKey provFail storeA rawBadRole "f" 0 1 2 3 =
      (storeA, Except.error ApiError.validationError) :=
  ⟨rfl,
   claim9_amended_validation envNoKey provFail storeA rawBadRole "f" 0 1 2 3 rfl⟩

end Chatbot
